import Mathlib

/-!
Verification of the FiveMinds ticket-execution orchestrator.

Shallow embedding of the Python sources under `fiveminds/`:
`models.py` (data model), `headmaster.py` (dependency wave planner),
`reviewer.py` (review gate, alignment score, follow-up injection,
summary), `runner.py` / `orchestrator.py` (wave execution, fault
isolation, commit step) and `tools/shell.py`, `tools/git.py`,
`tools/repo.py` (tool adapters).

Modelling conventions:
* Python `float` arithmetic is embedded as exact rational (`ℚ`)
  arithmetic; numeric literals such as `0.3` are the corresponding
  rationals.
* External effects (subprocess execution, the filesystem, the body of a
  unit of work, git) are parameters ("oracles") of the embedded
  functions; everything the code computes from an oracle outcome is
  translated from the source.
* Python dictionaries with a fixed key set are embedded as structures;
  the free-form `metadata : Dict[str, Any]` fields and display-only
  formatted feedback strings are not modelled (no modelled code path
  reads them).
* The planner's result dict `{"wave_0": [...], "wave_1": [...]}` with
  consecutively numbered keys in insertion order is embedded as the list
  of its values in key order.
-/

namespace FiveMinds

/-! ## Data model (`models.py`) -/

/-- `TicketStatus` from `models.py`. -/
inductive TicketStatus
  | pending
  | in_progress
  | completed
  | failed
  | needs_review
deriving DecidableEq, Repr

/-- `TicketPriority` from `models.py`. -/
inductive TicketPriority
  | low
  | medium
  | high
  | critical
deriving DecidableEq, Repr

/-- `AcceptanceCriteria` from `models.py`. -/
structure AcceptanceCriteria where
  description : String
  met : Bool
  evidence : Option String
deriving DecidableEq, Repr

/-- `Ticket` from `models.py` (the free-form `metadata` dict is not
modelled; no embedded code path reads it). -/
structure Ticket where
  id : String
  title : String
  description : String
  acceptance_criteria : List AcceptanceCriteria
  status : TicketStatus
  priority : TicketPriority
  dependencies : List String
  assigned_runner : Option String
deriving DecidableEq, Repr

/-- The structured test-count dictionary produced by
`Runner._run_tests` and read by the reviewer
(`{total, passed, failed, skipped}`). -/
structure TestResults where
  total : Nat
  passed : Nat
  failed : Nat
  skipped : Nat
deriving DecidableEq, Repr

/-- `RunnerResult` from `models.py`. -/
structure RunnerResult where
  ticket_id : String
  success : Bool
  diff : String
  logs : List String
  test_results : Option TestResults
  error_message : Option String
  execution_time : ℚ
deriving DecidableEq, Repr

/-- `ReviewResult` from `models.py` (the display-only `feedback` string
is not modelled). -/
structure ReviewResult where
  ticket_id : String
  approved : Bool
  alignment_score : ℚ
  follow_up_tickets : List Ticket
  suggestions : List String
deriving DecidableEq, Repr

/-- `Objective` from `models.py` (`metadata` not modelled). -/
structure Objective where
  description : String
  requirements : List String
  constraints : List String
  success_metrics : List String
deriving DecidableEq, Repr

/-! ## Dependency wave planner (`HeadMaster.optimize_parallelization`) -/

/-- The per-ticket condition of the planner's inner loop: the ticket is
not yet processed and every dependency id is in `processed`
(`headmaster.py` lines 218-225). -/
def eligible (processed : Finset String) (t : Ticket) : Bool :=
  !(decide (t.id ∈ processed)) && t.dependencies.all (fun d => decide (d ∈ processed))

/-- The set of ids of a wave, as added to `processed` by
`processed.update(ticket.id for ticket in current_wave)`. -/
def waveIds (w : List Ticket) : Finset String :=
  (w.map Ticket.id).toFinset

/-- The `while len(processed) < len(tickets)` loop of
`optimize_parallelization` (`headmaster.py` lines 214-234), with an
explicit fuel bound.  Each productive iteration adds at least one new id
to `processed`, so `tickets.length + 1` fuel provably suffices
(`planLoop_stable` below); the loop body is translated verbatim:
collect all eligible tickets, stop if none (`break` on a cycle), else
emit the wave and mark its ids processed. -/
def planLoop (tickets : List Ticket) : Nat → Finset String → List (List Ticket)
  | 0, _ => []
  | fuel + 1, processed =>
    if processed.card < tickets.length then
      if (tickets.filter (eligible processed)).isEmpty then []
      else
        tickets.filter (eligible processed) ::
          planLoop tickets fuel (processed ∪ waveIds (tickets.filter (eligible processed)))
    else []

/-- `HeadMaster.optimize_parallelization` (`headmaster.py` lines
198-237): organize tickets into parallel execution waves.  Returns the
waves in order (`wave_0`, `wave_1`, ...). -/
def optimize_parallelization (tickets : List Ticket) : List (List Ticket) :=
  planLoop tickets (tickets.length + 1) ∅

/-- The ids of all tickets of a list. -/
def ticketIds (tickets : List Ticket) : Finset String :=
  (tickets.map Ticket.id).toFinset

/-- A ticket id is schedulable when it is the id of a ticket all of
whose dependencies are themselves schedulable ids.  This is the least
fixed point describing exactly the tickets a topological scheduler can
ever place; cyclic tickets and tickets depending on missing ids are the
unschedulable ones. -/
inductive Sched (tickets : List Ticket) : String → Prop
  | mk (t : Ticket) (ht : t ∈ tickets)
      (hdeps : ∀ d ∈ t.dependencies, Sched tickets d) : Sched tickets t.id

/-- Scenario tickets from the spec: `A(deps=[])`, `B(deps=[A])`,
`C(deps=[A])`, `D(deps=[B,C])`. -/
def tScenA : Ticket :=
  ⟨"A", "A", "task A", [], .pending, .medium, [], none⟩

def tScenB : Ticket :=
  ⟨"B", "B", "task B", [], .pending, .medium, ["A"], none⟩

def tScenC : Ticket :=
  ⟨"C", "C", "task C", [], .pending, .medium, ["A"], none⟩

def tScenD : Ticket :=
  ⟨"D", "D", "task D", [], .pending, .medium, ["B", "C"], none⟩

def scenarioTickets : List Ticket :=
  [tScenA, tScenB, tScenC, tScenD]

/-- A topological rank witnessing that the scenario tickets form a DAG. -/
def scenarioRank (s : String) : Nat :=
  if s = "A" then 0 else if s = "B" then 1 else if s = "C" then 1 else 2

/-- A two-ticket dependency cycle: `X` depends on `Y` and `Y` on `X`. -/
def tCycX : Ticket :=
  ⟨"X", "X", "task X", [], .pending, .medium, ["Y"], none⟩

def tCycY : Ticket :=
  ⟨"Y", "Y", "task Y", [], .pending, .medium, ["X"], none⟩

def scenarioCycle : List Ticket :=
  [tCycX, tCycY]

/-- Invariant tying a produced wave list to the `processed` set it was
generated from: each wave is exactly the eligible tickets at its point,
is nonempty, and the tail is sound for the enlarged `processed` set. -/
def SoundWaves (tickets : List Ticket) : Finset String → List (List Ticket) → Prop
  | _, [] => True
  | p, w :: ws =>
    w = tickets.filter (eligible p) ∧ w ≠ [] ∧ SoundWaves tickets (p ∪ waveIds w) ws

/-- The `processed` set in force when wave `i` of `ws` is formed,
starting from `p`: `p` together with the ids of all earlier waves. -/
def placedBefore (p : Finset String) (ws : List (List Ticket)) (i : Nat) : Finset String :=
  p ∪ waveIds (ws.take i).flatten

/-! ## Reviewer (`reviewer.py`) -/

/-- Python substring containment `needle in hay`. -/
def containsStr (needle hay : String) : Bool :=
  hay.toList.tails.any (fun tail => needle.toList.isPrefixOf tail)

/-- The follow-up trigger for one log line
(`reviewer.py` line 221): `'TODO' in log or 'follow-up' in log.lower()`. -/
def isFollowUpLog (log : String) : Bool :=
  containsStr "TODO" log || containsStr "follow-up" log.toLower

/-- The follow-up ticket created for a non-zero failing-test count
(`reviewer.py` lines 206-217). -/
def mkTestFollowUp (ticket : Ticket) (failedCount : Nat) : Ticket :=
  ⟨ticket.id ++ "-FU-1",
   "Fix test failures for " ++ ticket.title,
   "Address " ++ toString failedCount ++ " failing test(s)",
   [⟨"All tests pass", false, none⟩],
   .pending, .high, [ticket.id], none⟩

/-- The follow-up ticket created for one trigger log line, numbered
`len(follow_ups)+1` (`reviewer.py` lines 220-232). -/
def mkLogFollowUp (ticket : Ticket) (log : String) (count : Nat) : Ticket :=
  ⟨ticket.id ++ "-FU-" ++ toString (count + 1),
   "Follow-up for " ++ ticket.title,
   "Address item from logs: " ++ log.take 100,
   [⟨"Complete follow-up work", false, none⟩],
   .pending, .medium, [ticket.id], none⟩

/-- `Reviewer._identify_follow_ups` (`reviewer.py` lines 192-234). -/
def identify_follow_ups (ticket : Ticket) (result : RunnerResult) : List Ticket :=
  let init : List Ticket :=
    match result.test_results with
    | some tr => if 0 < tr.failed then [mkTestFollowUp ticket tr.failed] else []
    | none => []
  result.logs.foldl
    (fun acc log =>
      if isFollowUpLog log then acc ++ [mkLogFollowUp ticket log acc.length] else acc)
    init

/-- `Reviewer._calculate_alignment_score` (`reviewer.py` lines 126-159). -/
def calculate_alignment_score (ticket : Ticket) (result : RunnerResult) : ℚ :=
  let score0 : ℚ := 0
  let score1 := if result.success then score0 + 0.3 else score0
  let criteria_met := ticket.acceptance_criteria.countP (fun c => c.met)
  let criteria_total := ticket.acceptance_criteria.length
  let score2 :=
    if 0 < criteria_total then
      score1 + 0.4 * ((criteria_met : ℚ) / (criteria_total : ℚ))
    else score1
  let score3 :=
    match result.test_results with
    | some tr =>
      if 0 < tr.total then score2 + 0.3 * ((tr.passed : ℚ) / (tr.total : ℚ)) else score2
    | none => score2 + 0.15
  min 1 score3

/-- `Reviewer._generate_suggestions` (`reviewer.py` lines 236-261). -/
def generate_suggestions (objective : Option Objective) (result : RunnerResult)
    (approved : Bool) : List String :=
  (if approved then []
   else ["Review the acceptance criteria and ensure all are met",
         "Check test results and fix any failing tests"]) ++
  (if 300 < result.execution_time then
    ["Consider breaking down into smaller tasks for faster execution"]
   else []) ++
  (match objective with
   | some o => ["Ensure changes align with objective: " ++ o.description]
   | none => [])

/-- `Reviewer.review_result` (`reviewer.py` lines 41-124): the review
gate.  `approved` starts `True` and is falsified by execution failure,
unmet criteria, failing sub-tests, or an alignment score below `0.7`;
the ticket's status is then set to `completed` or `failed`.  Mutation of
`ticket.status` is embedded by returning the updated ticket alongside
the `ReviewResult`. -/
def review_result (objective : Option Objective) (ticket : Ticket)
    (result : RunnerResult) : ReviewResult × Ticket :=
  let a1 : Bool := result.success
  let criteria_met := ticket.acceptance_criteria.countP (fun c => c.met)
  let criteria_total := ticket.acceptance_criteria.length
  let a2 : Bool := if criteria_met < criteria_total then false else a1
  let a3 : Bool :=
    match result.test_results with
    | some tr => if 0 < tr.failed then false else a2
    | none => a2
  let alignment_score := calculate_alignment_score ticket result
  let approved : Bool := if alignment_score < 0.7 then false else a3
  let follow_ups := identify_follow_ups ticket result
  let ticket2 :=
    { ticket with
        status := if approved then TicketStatus.completed else TicketStatus.failed }
  ({ ticket_id := ticket.id
     approved := approved
     alignment_score := alignment_score
     follow_up_tickets := follow_ups
     suggestions := generate_suggestions objective result approved }, ticket2)

/-- The summary dictionary of `Reviewer.create_summary`. -/
structure ReviewSummary where
  total_reviews : Nat
  approved : Nat
  rejected : Nat
  approval_rate : ℚ
  average_alignment_score : ℚ
  total_follow_up_tickets : Nat
deriving DecidableEq, Repr

/-- `Reviewer.create_summary` (`reviewer.py` lines 263-293); both
divisions by the review count are guarded by `if total > 0 else 0.0`. -/
def create_summary (reviews : List ReviewResult) : ReviewSummary :=
  let total := reviews.length
  let approvedCount := reviews.countP (fun r => r.approved)
  { total_reviews := total
    approved := approvedCount
    rejected := total - approvedCount
    approval_rate := if 0 < total then (approvedCount : ℚ) / (total : ℚ) else 0
    average_alignment_score :=
      if 0 < total then (reviews.map (fun r => r.alignment_score)).sum / (total : ℚ) else 0
    total_follow_up_tickets := (reviews.map (fun r => r.follow_up_tickets.length)).sum }

/-- The overall-success condition of `FiveMinds._generate_summary`
(`orchestrator.py` line 421):
`integration_status == "success" and approval_rate >= 0.8`. -/
def overall_success (integration_status : String) (summary : ReviewSummary) : Bool :=
  integration_status == "success" && decide ((0.8 : ℚ) ≤ summary.approval_rate)

/-- Scenario ticket for the review claims: three acceptance criteria,
all met. -/
def c4Ticket : Ticket :=
  ⟨"TKT-001", "feature", "Implement requirement: feature",
   [⟨"Implement: feature", true, none⟩,
    ⟨"Code passes all tests", true, none⟩,
    ⟨"Changes are documented", true, none⟩],
   .needs_review, .medium, [], none⟩

/-- Scenario result from the spec: success with
`test_results={total:5, passed:3, failed:2}`. -/
def c4Result : RunnerResult :=
  ⟨"TKT-001", true, "", [], some ⟨5, 3, 2, 0⟩, none, 1⟩

/-- A fully passing result (`{total:5, passed:5, failed:0}`). -/
def c3ResultPass : RunnerResult :=
  ⟨"TKT-001", true, "", [], some ⟨5, 5, 0, 0⟩, none, 1⟩

/-! ## Runner and wave executor (`runner.py`, `orchestrator.py`) -/

/-- The simulated diff of `Runner._generate_diff` (`runner.py` lines
192-214), after the trailing `.strip()`. -/
def generate_diff (rid : String) : String :=
  "diff --git a/modified_file.py b/modified_file.py\n" ++
  "index 1234567..abcdefg 100644\n" ++
  "--- a/modified_file.py\n" ++
  "+++ b/modified_file.py\n" ++
  "@@ -1,3 +1,6 @@\n" ++
  "+# Changes made by Runner " ++ rid ++ "\n" ++
  "+\n" ++
  " def example_function():\n" ++
  "-    pass\n" ++
  "+    # Implementation added\n" ++
  "+    return \"Implemented\""

/-- Outcome of the body of `Runner.execute_ticket`'s `try` block
(sandbox creation, `_implement_ticket`, `_generate_diff`,
`_run_tests`): either it runs to completion — producing the logs
appended inside the block and the test counts, after `elapsed` seconds —
or some step raises an exception with message `msg` after emitting
`partialLogs`.  (Partial mutation of acceptance criteria before a fault
is not modelled; no claim reads the faulted ticket's criteria.) -/
inductive WorkOutcome
  | ok (bodyLogs : List String) (tests : Option TestResults) (elapsed : ℚ)
  | raised (partialLogs : List String) (msg : String) (elapsed : ℚ)
deriving DecidableEq, Repr

/-- `Runner.execute_ticket` (`runner.py` lines 88-166): set the ticket
in progress and assigned, run the body, and either return a successful
`RunnerResult` (status `needs_review`, all acceptance criteria marked
met with evidence by `_implement_ticket`) or convert the raised fault
into a failed `RunnerResult` carrying
`"Error executing ticket: " ++ msg` (status `failed`).  Ticket mutation
is embedded by returning the updated ticket. -/
def execute_ticket (rid : String) (t : Ticket) (outcome : WorkOutcome) :
    RunnerResult × Ticket :=
  let logs0 := ["Runner " ++ rid ++ " started executing ticket " ++ t.id,
                "Ticket: " ++ t.title,
                "Description: " ++ t.description]
  match outcome with
  | .ok bodyLogs tests elapsed =>
    (⟨t.id, true, generate_diff rid, logs0 ++ bodyLogs, tests, none, elapsed⟩,
     { t with
        status := .needs_review
        assigned_runner := some rid
        acceptance_criteria := t.acceptance_criteria.map
          (fun c =>
            { c with
                met := true
                evidence := some ("Implemented in sandbox by Runner " ++ rid) }) })
  | .raised partialLogs msg elapsed =>
    (⟨t.id, false, "", logs0 ++ partialLogs ++ ["Error executing ticket: " ++ msg],
      none, some ("Error executing ticket: " ++ msg), elapsed⟩,
     { t with status := .failed, assigned_runner := some rid })

/-- Outcome of the git interaction of `Runner.commit_changes`: a
successful commit, a returned failure, or a raised exception (caught by
the orchestrator's per-future handler). -/
inductive GitCommitOutcome
  | committed (output : String)
  | failedCommit (err : String)
  | raisedE (msg : String)
deriving DecidableEq, Repr

/-- One attempted commit: the request data built by
`Runner.commit_changes` plus the adapter outcome. -/
structure CommitStep where
  ticket_id : String
  message : String
  author : String
  outcome : GitCommitOutcome
deriving DecidableEq, Repr

/-- Modelled from the spec: the Version-Control Adapter commit
operation.  `Runner.commit_changes` (`runner.py` lines 254-297) calls
`GitTools.configure`, `GitTools.add` and `GitTools.commit`, none of
which is defined in the source tree; per the spec the orchestrator
"requests a commit through the Version-Control Adapter using supplied
author identity".  The commit message and `author` string are built as
in `runner.py` lines 286-289; the adapter interaction itself is a
`GitCommitOutcome` oracle. -/
def commit_changes (rid uname uemail : String) (t : Ticket)
    (outcome : GitCommitOutcome) : CommitStep :=
  { ticket_id := t.id
    message := "[" ++ t.id ++ "] " ++ t.title ++
      "\n\nImplemented by FiveMinds Runner " ++ rid
    author := uname ++ " <" ++ uemail ++ ">"
    outcome := outcome }

/-- Everything the orchestrator retains from processing one ticket of a
wave: the stored `RunnerResult` (`self.results[ticket.id] = result`,
`orchestrator.py` line 281), the mutated ticket, and the commit step
attempted afterwards (if any). -/
structure TicketRun where
  result : RunnerResult
  ticketAfter : Ticket
  commitStep : Option CommitStep
deriving DecidableEq, Repr

/-- Per-ticket processing of `FiveMinds._execute_tickets_in_waves`
(`orchestrator.py` lines 258-307): runner `R{idx+1}` executes the
ticket; the result is stored first; in autonomous mode a commit is
attempted afterwards when the result is successful, and its outcome —
returned failure or raised exception alike — is only logged, never
written back into the stored result or the ticket. -/
def processTicket (autonomous : Bool) (uname uemail : String)
    (work : Ticket → WorkOutcome) (git : Ticket → GitCommitOutcome)
    (idx : Nat) (t : Ticket) : TicketRun :=
  let rid := "R" ++ toString (idx + 1)
  let res := execute_ticket rid t (work t)
  { result := res.1
    ticketAfter := res.2
    commitStep :=
      if autonomous && res.1.success then
        some (commit_changes rid uname uemail t (git t))
      else none }

/-- One wave of `FiveMinds._execute_tickets_in_waves`: every ticket of
the wave is processed and yields exactly one `TicketRun`.  The
concurrent as-completed collection of futures is embedded as a map over
the wave (per-ticket processing is independent, which is what the
isolation theorems make explicit); the cross-thread stop flag is not
modelled. -/
def executeWave (autonomous : Bool) (uname uemail : String)
    (work : Ticket → WorkOutcome) (git : Ticket → GitCommitOutcome)
    (wave : List Ticket) : List TicketRun :=
  wave.enum.map (fun p => processTicket autonomous uname uemail work git p.1 p.2)

/-- Junk default for positional access to run lists. -/
def defaultRun : TicketRun :=
  ⟨⟨"", false, "", [], none, none, 0⟩,
   ⟨"", "", "", [], .pending, .medium, [], none⟩, none⟩

/-- Wave-scenario tickets: one healthy ticket and one whose unit of
work raises. -/
def c5Good : Ticket :=
  ⟨"G", "G", "good ticket", [⟨"works", false, none⟩], .pending, .medium, [], none⟩

def c5Bad : Ticket :=
  ⟨"E", "E", "bad ticket", [⟨"works", false, none⟩], .pending, .medium, [], none⟩

def c5Wave : List Ticket :=
  [c5Good, c5Bad]

def c5Work : Ticket → WorkOutcome := fun t =>
  if t.id = "E" then .raised [] "boom" 0 else .ok [] (some ⟨5, 5, 0, 0⟩) 0

def c5WorkAlt : Ticket → WorkOutcome := fun t =>
  if t.id = "E" then .raised [] "other fault" 0 else .ok [] (some ⟨5, 5, 0, 0⟩) 0

def c9GitFail : Ticket → GitCommitOutcome := fun _ => .failedCommit "Failed to stage changes"

def c9GitOk : Ticket → GitCommitOutcome := fun _ => .committed "committed"

def c9Wave : List Ticket :=
  [c5Good]

/-! ## Tool adapters (`tools/shell.py`, `tools/git.py`, `tools/repo.py`) -/

/-- Outcome of one `subprocess.run` call: normal completion, timeout
(`subprocess.TimeoutExpired`), missing executable (`FileNotFoundError`),
or any other exception. -/
inductive ProcOutcome
  | completed (exitCode : Int) (stdout stderr : String)
  | timedOut
  | notFound
  | failedE (msg : String)
deriving DecidableEq, Repr

/-- The uniform tool result `{success, output, error, logs}`;
`output: Any` is instantiated per adapter. -/
structure ToolResult (α : Type) where
  success : Bool
  output : α
  error : Option String
  logs : List String
deriving DecidableEq, Repr

/-- `MAX_OUTPUT_LENGTH` from `tools/shell.py`. -/
def MAX_OUTPUT_LENGTH : Nat := 1024 * 1024

/-- Output truncation of `ShellTools.run` (`shell.py` lines 123-126). -/
def truncateOutput (s : String) : String :=
  if MAX_OUTPUT_LENGTH < s.length then
    s.take MAX_OUTPUT_LENGTH ++ "\n... [output truncated]"
  else s

/-- The effective command timeout `timeout or self.timeout` (Python
`or`: an explicit `0` is falsy and falls back to the default). -/
def effectiveTimeout (given : Option Nat) (dflt : Nat) : Nat :=
  match given with
  | some t => if t = 0 then dflt else t
  | none => dflt

/-- `ShellTools` instance state (`shell.py` lines 48-60). -/
structure ShellTools where
  working_dir : String
  timeout : Nat
  logs : List String
deriving DecidableEq, Repr

/-- The structured output dict of `ShellTools.run`; the timeout and
generic-failure branches carry no `stdout`/`stderr` keys and a `None`
exit code. -/
structure ShellOutput where
  command : String
  exit_code : Option Int
  stdout : Option String
  stderr : Option String
deriving DecidableEq, Repr

/-- `ShellTools.run` (`shell.py` lines 67-184): execute a command with
the effective timeout, truncate captured output, and convert every
subprocess fault into a structured `success := false` result.  No path
argument is validated: the command and arguments are passed to the
subprocess as given. -/
def ShellTools.run (st : ShellTools) (command : String) (args : List String)
    (timeout : Option Nat) (proc : ProcOutcome) : ToolResult ShellOutput :=
  let cmd_timeout := effectiveTimeout timeout st.timeout
  let cmd_str := " ".intercalate (command :: args)
  let logs1 := st.logs ++ ["shell.run called: " ++ cmd_str]
  match proc with
  | .completed exitCode out err =>
    let stdout := truncateOutput out
    let stderr := truncateOutput err
    { success := exitCode == 0
      output := ⟨cmd_str, some exitCode, some stdout, some stderr⟩
      error := if exitCode == 0 then none else some stderr
      logs := logs1 ++ ["shell.run completed: exit_code=" ++ toString exitCode] }
  | .timedOut =>
    let emsg := "Command timed out after " ++ toString cmd_timeout ++ " seconds"
    { success := false
      output := ⟨cmd_str, none, none, none⟩
      error := some emsg
      logs := logs1 ++ ["shell.run timeout: " ++ emsg] }
  | .notFound =>
    let emsg := "Command not found: " ++ command
    { success := false
      output := ⟨cmd_str, some 127, none, none⟩
      error := some emsg
      logs := logs1 ++ ["shell.run failed: " ++ emsg] }
  | .failedE msg =>
    let emsg := "Command execution failed: " ++ msg
    { success := false
      output := ⟨cmd_str, none, none, none⟩
      error := some emsg
      logs := logs1 ++ ["shell.run failed: " ++ emsg] }

/-- `GitTools` instance state (`git.py` lines 48-63). -/
structure GitTools where
  repo_path : String
  timeout : Nat
  logs : List String
deriving DecidableEq, Repr

/-- `GitTools._run_git` (`git.py` lines 70-132): run a git command in
the repository with the effective timeout; the output is the stripped
stdout (`None` when empty on failure); timeouts, a missing git binary
and other exceptions become structured failures.  No path argument is
validated. -/
def GitTools.run_git (gt : GitTools) (args : List String) (timeout : Option Nat)
    (proc : ProcOutcome) : ToolResult (Option String) :=
  let cmd_timeout := effectiveTimeout timeout gt.timeout
  let cmd_str := " ".intercalate ("git" :: args)
  let logs1 := gt.logs ++ ["Executing: " ++ cmd_str]
  match proc with
  | .completed exitCode out err =>
    if exitCode == 0 then
      { success := true, output := some out.trim, error := none, logs := logs1 }
    else
      { success := false
        output := if out = "" then none else some out.trim
        error := some err.trim
        logs := logs1 }
  | .timedOut =>
    { success := false
      output := none
      error := some ("Git command timed out after " ++ toString cmd_timeout ++ " seconds")
      logs := logs1 }
  | .notFound =>
    { success := false
      output := none
      error := some "Git is not installed or not in PATH"
      logs := logs1 }
  | .failedE msg =>
    { success := false, output := none, error := some msg, logs := logs1 }

/-- A filesystem path as handed to `RepoTools`: an absolute flag plus
components (POSIX, symlink-free; `Path.resolve` is embedded as lexical
`..`/`.` normalization). -/
structure PyPath where
  absolute : Bool
  comps : List String
deriving DecidableEq, Repr

/-- Lexical normalization performed by `Path.resolve`: drop `.` and
empty components, let `..` pop the previous component (staying at the
root when there is none). -/
def normalizeComps (comps : List String) : List String :=
  comps.foldl
    (fun acc c =>
      if c = "." ∨ c = "" then acc
      else if c = ".." then acc.dropLast
      else acc ++ [c])
    []

/-- String rendering of a path (used in error messages). -/
def renderPath (p : PyPath) : String :=
  (if p.absolute then "/" else "") ++ "/".intercalate p.comps

/-- `RepoTools` instance state (`repo.py` lines 42-51): the repository
root is resolved at construction. -/
structure RepoTools where
  repo_path : List String
  logs : List String
deriving DecidableEq, Repr

def RepoTools.make (raw : List String) : RepoTools :=
  ⟨normalizeComps raw, []⟩

/-- Resolution step of `RepoTools._validate_path` (`repo.py` lines
71-74): absolute paths resolve on their own, relative paths resolve
against the repository root. -/
def resolvePath (root : List String) (p : PyPath) : List String :=
  if p.absolute then normalizeComps p.comps else normalizeComps (root ++ p.comps)

/-- The `ValueError` message of `_validate_path` (`repo.py` line 80). -/
def outsideMsg (p : PyPath) : String :=
  "Path \x27" ++ renderPath p ++ "\x27 is outside repository bounds"

/-- `RepoTools._validate_path` (`repo.py` lines 58-82): resolve, then
require the repository root to be a prefix of the resolved path
(`resolved.relative_to(self.repo_path)`); otherwise raise (embedded as
`Except.error`). -/
def validate_path (rt : RepoTools) (p : PyPath) : Except String (List String) :=
  let resolved := resolvePath rt.repo_path p
  if rt.repo_path.isPrefixOf resolved then Except.ok resolved
  else Except.error (outsideMsg p)

/-- A filesystem node, for the filesystem oracle of `RepoTools.read`. -/
inductive FsNode
  | file (content : String)
  | dir
deriving DecidableEq, Repr

/-- The structured output dict of `RepoTools.read`. -/
structure ReadOutput where
  path : String
  content : String
  lines : Nat
  total_lines : Nat
deriving DecidableEq, Repr

/-- `MAX_FILE_SIZE` from `tools/repo.py`. -/
def MAX_FILE_SIZE : Nat := 1024 * 1024

/-- `RepoTools.read` (`repo.py` lines 218-290): validate the path
first — a validation error is caught and returned as a failure result
before any filesystem access — then check existence, file-ness and
size against the filesystem oracle `fs`, and finally slice the
requested line range. -/
def RepoTools.read (rt : RepoTools) (fs : List String → Option FsNode)
    (p : PyPath) (start_line : Nat) (end_line : Option Nat) :
    ToolResult (Option ReadOutput) :=
  let logs1 := rt.logs ++ ["repo.read called: path=" ++ renderPath p]
  match validate_path rt p with
  | .error e =>
    { success := false, output := none, error := some e
      logs := logs1 ++ ["repo.read failed: " ++ e] }
  | .ok resolved =>
    match fs resolved with
    | none =>
      { success := false, output := none
        error := some ("File does not exist: " ++ renderPath p)
        logs := logs1 }
    | some .dir =>
      { success := false, output := none
        error := some ("Not a file: " ++ renderPath p)
        logs := logs1 }
    | some (.file content) =>
      if MAX_FILE_SIZE < content.utf8ByteSize then
        { success := false, output := none
          error := some ("File too large: " ++ toString content.utf8ByteSize ++
            " bytes (max: " ++ toString MAX_FILE_SIZE ++ ")")
          logs := logs1 }
      else
        let allLines := content.splitOn "\n"
        let sel :=
          match end_line with
          | some e => (allLines.drop start_line).take (e - start_line)
          | none => allLines.drop start_line
        { success := true
          output := some ⟨renderPath p, "\n".intercalate sel, sel.length, allLines.length⟩
          error := none
          logs := logs1 ++ ["repo.read completed: " ++ toString sel.length ++ " lines"] }

/-- The structured output dict of `RepoTools.diff`
(`{"diff": ..., "path1": ..., "path2": ...}`). -/
structure DiffOutput where
  diff : String
  path1 : String
  path2 : Option String
deriving DecidableEq, Repr

/-- `str(e)` of the `IsADirectoryError` raised by `read_text()` on a
directory (caught by the adapter's generic handler). -/
def isADirectoryMsg (p : String) : String :=
  "[Errno 21] Is a directory: \x27" ++ p ++ "\x27"

/-- Rendering of the optional second path in `repo.diff`'s call log
(Python formats `None` as the string `None`). -/
def renderPath2 (p2 : Option PyPath) : String :=
  match p2 with
  | some p => renderPath p
  | none => "None"

/-- `RepoTools.diff` (`repo.py` lines 361-431), preserving the source's
order of effects exactly: validate `path1`, check its existence and
read it (I/O on the filesystem oracle `fs`), and only then validate
`path2` — so an outside `path2` is rejected (the raised `ValueError` is
caught and returned as a failure result) only after `path1` has been
read.  `difflib.unified_diff` followed by `''.join` is a Python library
function external to this repository, embedded as the parameter
`udiff` applied to the two file contents, the two labels and the
context-line count. -/
def RepoTools.diff (rt : RepoTools) (fs : List String → Option FsNode)
    (udiff : String → String → String → String → Nat → String)
    (path1 : PyPath) (path2 : Option PyPath) (context_lines : Nat) :
    ToolResult (Option DiffOutput) :=
  let logs1 := rt.logs ++
    ["repo.diff called: path1=" ++ renderPath path1 ++ ", path2=" ++ renderPath2 path2]
  match validate_path rt path1 with
  | .error e =>
    { success := false, output := none, error := some e
      logs := logs1 ++ ["repo.diff failed: " ++ e] }
  | .ok r1 =>
    match fs r1 with
    | none =>
      { success := false, output := none
        error := some ("File does not exist: " ++ renderPath path1)
        logs := logs1 }
    | some .dir =>
      { success := false, output := none
        error := some (isADirectoryMsg (renderPath path1))
        logs := logs1 ++ ["repo.diff failed: " ++ isADirectoryMsg (renderPath path1)] }
    | some (.file content1) =>
      match path2 with
      | some p2 =>
        match validate_path rt p2 with
        | .error e =>
          { success := false, output := none, error := some e
            logs := logs1 ++ ["repo.diff failed: " ++ e] }
        | .ok r2 =>
          match fs r2 with
          | none =>
            { success := false, output := none
              error := some ("File does not exist: " ++ renderPath p2)
              logs := logs1 }
          | some .dir =>
            { success := false, output := none
              error := some (isADirectoryMsg (renderPath p2))
              logs := logs1 ++ ["repo.diff failed: " ++ isADirectoryMsg (renderPath p2)] }
          | some (.file content2) =>
            { success := true
              output := some ⟨udiff content2 content1 (renderPath p2) (renderPath path1)
                context_lines, renderPath path1, some (renderPath p2)⟩
              error := none
              logs := logs1 ++ ["repo.diff completed"] }
      | none =>
        { success := true
          output := some ⟨udiff "" content1 "/dev/null" (renderPath path1) context_lines,
            renderPath path1, none⟩
          error := none
          logs := logs1 ++ ["repo.diff completed"] }

/-- Concrete adapters and paths for the containment scenarios. -/
def c8Shell : ShellTools :=
  ⟨"/sandbox", 30, []⟩

def c8Traversal : PyPath :=
  ⟨false, ["..", "etc", "passwd"]⟩

def c8FsEmpty : List String → Option FsNode := fun _ => none

def c8FsSecret : List String → Option FsNode := fun _ => some (FsNode.file "secret")

/-- An in-repository relative path and a filesystem where it exists. -/
def c8Inside : PyPath :=
  ⟨false, ["file.txt"]⟩

def c8FsInside : List String → Option FsNode :=
  fun path => if path = ["repo", "file.txt"] then some (FsNode.file "hello") else none

/-- A concrete stand-in for the `difflib.unified_diff` parameter. -/
def c8UDiff : String → String → String → String → Nat → String :=
  fun _ _ _ _ _ => ""

/-! ## Theorems: dependency wave planner -/

theorem eligible_iff (p : Finset String) (t : Ticket) :
    eligible p t = true ↔ t.id ∉ p ∧ ∀ d ∈ t.dependencies, d ∈ p := by
  simp [eligible, List.all_eq_true]

theorem mem_waveIds {w : List Ticket} {x : String} :
    x ∈ waveIds w ↔ ∃ t ∈ w, t.id = x := by
  simp [waveIds]

theorem waveIds_append (a b : List Ticket) :
    waveIds (a ++ b) = waveIds a ∪ waveIds b := by
  simp [waveIds]

theorem card_lt_card_union_wave {tickets : List Ticket} {p : Finset String}
    (he : ¬(tickets.filter (eligible p)).isEmpty = true) :
    p.card < (p ∪ waveIds (tickets.filter (eligible p))).card := by
  obtain ⟨t, ht⟩ : ∃ t, t ∈ tickets.filter (eligible p) := by
    match hw : tickets.filter (eligible p) with
    | [] => rw [hw] at he; simp at he
    | t :: l => exact ⟨t, List.mem_cons_self t l⟩
  have hid : t.id ∉ p := ((eligible_iff p t).1 (List.mem_filter.1 ht).2).1
  have hsub : insert t.id p ⊆ p ∪ waveIds (tickets.filter (eligible p)) := by
    intro x hx
    rcases Finset.mem_insert.1 hx with rfl | hx
    · exact Finset.mem_union_right _ (mem_waveIds.2 ⟨t, ht, rfl⟩)
    · exact Finset.mem_union_left _ hx
  have := Finset.card_le_card hsub
  rw [Finset.card_insert_of_not_mem hid] at this
  omega

theorem soundWaves_planLoop (tickets : List Ticket) :
    ∀ fuel p, SoundWaves tickets p (planLoop tickets fuel p) := by
  intro fuel
  induction fuel with
  | zero => intro p; simp [planLoop, SoundWaves]
  | succ n ih =>
    intro p
    rw [planLoop]
    by_cases hg : p.card < tickets.length
    · rw [if_pos hg]
      by_cases he : (tickets.filter (eligible p)).isEmpty = true
      · rw [if_pos he]; simp [SoundWaves]
      · rw [if_neg he]
        exact ⟨rfl, by simpa [List.isEmpty_iff] using he, ih _⟩
    · rw [if_neg hg]; simp [SoundWaves]

theorem planLoop_stable (tickets : List Ticket) :
    ∀ fuel fuel' p, tickets.length - p.card < fuel → fuel ≤ fuel' →
      planLoop tickets fuel p = planLoop tickets fuel' p := by
  intro fuel
  induction fuel with
  | zero => intro fuel' p h; exact absurd h (Nat.not_lt_zero _)
  | succ n ih =>
    intro fuel' p h hle
    obtain ⟨m, rfl⟩ : ∃ m, fuel' = m + 1 := ⟨fuel' - 1, by omega⟩
    rw [planLoop, planLoop]
    by_cases hg : p.card < tickets.length
    · rw [if_pos hg, if_pos hg]
      by_cases he : (tickets.filter (eligible p)).isEmpty = true
      · rw [if_pos he, if_pos he]
      · rw [if_neg he, if_neg he]
        have hcard := @card_lt_card_union_wave tickets p he
        congr 1
        exact ih m _ (by omega) (by omega)
    · rw [if_neg hg, if_neg hg]

theorem waveIds_subset_ticketIds {tickets w : List Ticket}
    (hw : ∀ u ∈ w, u ∈ tickets) : waveIds w ⊆ ticketIds tickets := by
  intro x hx
  obtain ⟨u, hu, rfl⟩ := mem_waveIds.1 hx
  exact List.mem_toFinset.2 (List.mem_map.2 ⟨u, hw u hu, rfl⟩)

theorem planLoop_end (tickets : List Ticket) :
    ∀ fuel p, p ⊆ ticketIds tickets → tickets.length - p.card < fuel →
      tickets.filter (eligible (p ∪ waveIds (planLoop tickets fuel p).flatten)) = []
      ∨ ∀ t ∈ tickets, t.id ∈ p ∪ waveIds (planLoop tickets fuel p).flatten := by
  intro fuel
  induction fuel with
  | zero => intro p _ h; exact absurd h (Nat.not_lt_zero _)
  | succ n ih =>
    intro p hsub hf
    by_cases hg : p.card < tickets.length
    · by_cases he : (tickets.filter (eligible p)).isEmpty = true
      · left
        rw [planLoop, if_pos hg, if_pos he]
        simpa [waveIds, List.isEmpty_iff] using he
      · have hcard := @card_lt_card_union_wave tickets p he
        have hsub2 : p ∪ waveIds (tickets.filter (eligible p)) ⊆ ticketIds tickets := by
          refine Finset.union_subset hsub (waveIds_subset_ticketIds ?_)
          intro u hu
          exact List.mem_of_mem_filter hu
        have hrec := ih (p ∪ waveIds (tickets.filter (eligible p))) hsub2 (by omega)
        rw [planLoop, if_pos hg, if_neg he]
        rw [List.flatten_cons, waveIds_append, ← Finset.union_assoc]
        exact hrec
    · right
      intro t ht
      have hcards : (ticketIds tickets).card ≤ p.card := by
        have h1 : (ticketIds tickets).card ≤ tickets.length := by
          simpa [ticketIds] using List.toFinset_card_le (tickets.map Ticket.id)
        omega
      have hp : p = ticketIds tickets := Finset.eq_of_subset_of_card_le hsub hcards
      refine Finset.mem_union_left _ ?_
      rw [hp]
      exact List.mem_toFinset.2 (List.mem_map.2 ⟨t, ht, rfl⟩)

theorem mem_take_flatten {α : Type} (ws : List (List α)) (i : Nat) (u : α) :
    u ∈ (ws.take i).flatten ↔ ∃ j, ∃ h : j < ws.length, j < i ∧ u ∈ ws.get ⟨j, h⟩ := by
  induction ws generalizing i with
  | nil => simp
  | cons w ws ih =>
    cases i with
    | zero => simp
    | succ i =>
      rw [List.take_succ_cons, List.flatten_cons]
      simp only [List.mem_append, ih]
      constructor
      · rintro (hu | ⟨j, h, hj, hu⟩)
        · exact ⟨0, by simp, by omega, hu⟩
        · exact ⟨j + 1, by simpa using h, by omega, hu⟩
      · rintro ⟨j, h, hj, hu⟩
        match j with
        | 0 => exact Or.inl hu
        | j + 1 => exact Or.inr ⟨j, by simpa using h, by omega, hu⟩

theorem mem_waveIds_take {ws : List (List Ticket)} {i : Nat} {d : String} :
    d ∈ waveIds (ws.take i).flatten ↔
      ∃ j, ∃ h : j < ws.length, j < i ∧ ∃ u ∈ ws.get ⟨j, h⟩, u.id = d := by
  rw [mem_waveIds]
  constructor
  · rintro ⟨u, hu, rfl⟩
    obtain ⟨j, h, hj, hu⟩ := (mem_take_flatten ws i u).1 hu
    exact ⟨j, h, hj, u, hu, rfl⟩
  · rintro ⟨j, h, hj, u, hu, rfl⟩
    exact ⟨u, (mem_take_flatten ws i u).2 ⟨j, h, hj, hu⟩, rfl⟩

theorem soundWaves_get (tickets : List Ticket) :
    ∀ (ws : List (List Ticket)) (p : Finset String), SoundWaves tickets p ws →
      ∀ i (h : i < ws.length),
        ws.get ⟨i, h⟩ = tickets.filter (eligible (placedBefore p ws i)) := by
  intro ws
  induction ws with
  | nil => intro p _ i h; exact absurd h (Nat.not_lt_zero _)
  | cons w ws ih =>
    intro p hs i h
    obtain ⟨hw, _, hrest⟩ := hs
    match i with
    | 0 =>
      simpa [placedBefore, waveIds] using hw
    | i + 1 =>
      have hplaced : placedBefore p (w :: ws) (i + 1) = placedBefore (p ∪ waveIds w) ws i := by
        simp [placedBefore, List.take_succ_cons, List.flatten_cons, waveIds_append,
          Finset.union_assoc]
      rw [List.get_cons_succ, hplaced]
      exact ih (p ∪ waveIds w) hrest i (by simpa using h)

theorem soundWaves_flatten_subset (tickets : List Ticket) :
    ∀ (ws : List (List Ticket)) (p : Finset String), SoundWaves tickets p ws →
      ∀ u ∈ ws.flatten, u ∈ tickets := by
  intro ws
  induction ws with
  | nil => intro p _ u hu; simp at hu
  | cons w ws ih =>
    intro p hs u hu
    obtain ⟨hw, _, hrest⟩ := hs
    rw [List.flatten_cons, List.mem_append] at hu
    rcases hu with hu | hu
    · rw [hw] at hu
      exact List.mem_of_mem_filter hu
    · exact ih _ hrest u hu

theorem not_mem_two_waves {tickets : List Ticket} {ws : List (List Ticket)} {p : Finset String}
    (hs : SoundWaves tickets p ws) {i j : Fin ws.length} (hij : (i : ℕ) < (j : ℕ))
    {t : Ticket} (hti : t ∈ ws.get i) (htj : t ∈ ws.get j) : False := by
  have hj := soundWaves_get tickets ws p hs j j.isLt
  rw [hj] at htj
  have hid := ((eligible_iff _ _).1 (List.mem_filter.1 htj).2).1
  apply hid
  refine Finset.mem_union_right _ (mem_waveIds_take.2 ?_)
  exact ⟨i, i.isLt, hij, t, hti, rfl⟩

theorem eq_of_mem_of_id_eq {tickets : List Ticket}
    (hnd : (tickets.map Ticket.id).Nodup)
    {t u : Ticket} (ht : t ∈ tickets) (hu : u ∈ tickets) (h : u.id = t.id) : u = t :=
  List.inj_on_of_nodup_map hnd hu ht h

theorem planner_complete (tickets : List Ticket) (r : String → Nat)
    (hnd : (tickets.map Ticket.id).Nodup)
    (hdag : ∀ t ∈ tickets, ∀ d ∈ t.dependencies,
      (∃ u ∈ tickets, u.id = d) ∧ r d < r t.id) :
    ∀ t ∈ tickets, t ∈ (optimize_parallelization tickets).flatten := by
  have hend := planLoop_end tickets (tickets.length + 1) ∅ (Finset.empty_subset _) (by omega)
  rw [show planLoop tickets (tickets.length + 1) ∅ = optimize_parallelization tickets from rfl]
    at hend
  have hall : ∀ t ∈ tickets, t.id ∈ waveIds (optimize_parallelization tickets).flatten := by
    rcases hend with hempty | hall
    · intro t ht
      by_contra hid
      have hne : (tickets.filter
          (fun t => !(decide (t.id ∈ waveIds (optimize_parallelization tickets).flatten)))
          ) ≠ [] := by
        intro hnil
        have := List.filter_eq_nil_iff.1 hnil t ht
        simp at this
        exact hid this
      obtain ⟨t0, ht0, hmin⟩ := Finset.exists_min_image
        (tickets.filter
          (fun t => !(decide (t.id ∈ waveIds (optimize_parallelization tickets).flatten)))).toFinset
        (fun t => r t.id)
        (by
          rcases List.exists_mem_of_ne_nil _ hne with ⟨u, hu⟩
          exact ⟨u, List.mem_toFinset.2 hu⟩)
      rw [List.mem_toFinset, List.mem_filter] at ht0
      obtain ⟨ht0t, ht0id⟩ := ht0
      have ht0id : t0.id ∉ waveIds (optimize_parallelization tickets).flatten := by
        simpa using ht0id
      have helig : eligible (∅ ∪ waveIds (optimize_parallelization tickets).flatten) t0 = true := by
        rw [eligible_iff]
        constructor
        · simpa using ht0id
        · intro d hd
          obtain ⟨⟨u, hu, rfl⟩, hlt⟩ := hdag t0 ht0t d hd
          by_contra hdout
          have hdout2 : u.id ∉ waveIds (optimize_parallelization tickets).flatten := by
            intro hx
            exact hdout (by simpa using Finset.mem_union_right (∅ : Finset String) hx)
          have humem : u ∈ (tickets.filter
              (fun t => !(decide (t.id ∈ waveIds (optimize_parallelization tickets).flatten)))
              ).toFinset :=
            List.mem_toFinset.2 (List.mem_filter.2 ⟨hu, by simpa using hdout2⟩)
          exact absurd hlt (not_lt.2 (hmin u humem))
      have : t0 ∈ tickets.filter
          (eligible (∅ ∪ waveIds (optimize_parallelization tickets).flatten)) :=
        List.mem_filter.2 ⟨ht0t, helig⟩
      rw [hempty] at this
      simp at this
    · intro t ht
      simpa using hall t ht
  intro t ht
  obtain ⟨u, hu, huid⟩ := mem_waveIds.1 (hall t ht)
  have hut : u ∈ tickets :=
    soundWaves_flatten_subset tickets _ ∅ (soundWaves_planLoop tickets _ ∅) u hu
  rwa [eq_of_mem_of_id_eq hnd ht hut huid] at hu

theorem sched_of_mem_wave (tickets : List Ticket) {ws : List (List Ticket)}
    (hs : SoundWaves tickets ∅ ws) :
    ∀ i (h : i < ws.length), ∀ t ∈ ws.get ⟨i, h⟩, Sched tickets t.id := by
  intro i
  induction i using Nat.strong_induction_on with
  | _ i ih =>
    intro h t ht
    rw [soundWaves_get tickets ws ∅ hs i h] at ht
    obtain ⟨htick, helig⟩ := List.mem_filter.1 ht
    obtain ⟨_, hdeps⟩ := (eligible_iff _ _).1 helig
    refine Sched.mk t htick ?_
    intro d hd
    have hdp := hdeps d hd
    simp only [placedBefore, Finset.empty_union] at hdp
    obtain ⟨j, hj, hji, u, hu, rfl⟩ := mem_waveIds_take.1 hdp
    exact ih j hji hj u hu

theorem sched_mem_end (tickets : List Ticket)
    (hempty : tickets.filter
      (eligible (∅ ∪ waveIds (optimize_parallelization tickets).flatten)) = []) :
    ∀ x, Sched tickets x → x ∈ waveIds (optimize_parallelization tickets).flatten := by
  intro x hx
  induction hx with
  | mk t htick hdeps ih =>
    by_cases hid : t.id ∈ waveIds (optimize_parallelization tickets).flatten
    · exact hid
    · exfalso
      have helig :
          eligible (∅ ∪ waveIds (optimize_parallelization tickets).flatten) t = true := by
        rw [eligible_iff]
        exact ⟨by simpa using hid, fun d hd => by simpa using ih d hd⟩
      have hmem : t ∈ tickets.filter
          (eligible (∅ ∪ waveIds (optimize_parallelization tickets).flatten)) :=
        List.mem_filter.2 ⟨htick, helig⟩
      rw [hempty] at hmem
      simp at hmem

/-- C1: for every ticket set whose dependency graph is a valid DAG
(distinct ids, every dependency the id of a ticket, acyclicity witnessed
by a topological rank `r`), `optimize_parallelization` places every
ticket in exactly one wave, places every dependency of a placed ticket
in a strictly earlier wave, and makes each wave maximal (a ticket absent
from the first `i` waves whose dependencies are all covered by those
waves is in wave `i`); and on the scenario tickets `A, B(A), C(A),
D(B,C)` it produces the waves `[A], [B, C], [D]`. -/
theorem claim_C1_wave_planner (tickets : List Ticket) (r : String → Nat)
    (hnd : (tickets.map Ticket.id).Nodup)
    (hdag : ∀ t ∈ tickets, ∀ d ∈ t.dependencies,
      (∃ u ∈ tickets, u.id = d) ∧ r d < r t.id) :
    (∀ t ∈ tickets, ∃! i : Fin (optimize_parallelization tickets).length,
      t ∈ (optimize_parallelization tickets).get i) ∧
    (∀ i : Fin (optimize_parallelization tickets).length,
      ∀ t ∈ (optimize_parallelization tickets).get i, ∀ d ∈ t.dependencies,
      ∃ j : Fin (optimize_parallelization tickets).length,
        (j : ℕ) < (i : ℕ) ∧ ∃ u ∈ (optimize_parallelization tickets).get j, u.id = d) ∧
    (∀ i : Fin (optimize_parallelization tickets).length, ∀ t ∈ tickets,
      (∀ j : Fin (optimize_parallelization tickets).length, (j : ℕ) < (i : ℕ) →
        t ∉ (optimize_parallelization tickets).get j) →
      (∀ d ∈ t.dependencies, ∃ j : Fin (optimize_parallelization tickets).length,
        (j : ℕ) < (i : ℕ) ∧ ∃ u ∈ (optimize_parallelization tickets).get j, u.id = d) →
      t ∈ (optimize_parallelization tickets).get i) ∧
    optimize_parallelization scenarioTickets = [[tScenA], [tScenB, tScenC], [tScenD]] := by
  have hsound : SoundWaves tickets ∅ (optimize_parallelization tickets) :=
    soundWaves_planLoop tickets (tickets.length + 1) ∅
  refine ⟨?_, ?_, ?_, by decide⟩
  · intro t ht
    obtain ⟨w, hw, htw⟩ := List.mem_flatten.1 (planner_complete tickets r hnd hdag t ht)
    obtain ⟨i, hi⟩ := List.mem_iff_get.1 hw
    have htwi : t ∈ (optimize_parallelization tickets).get i := by rw [hi]; exact htw
    refine ⟨i, htwi, ?_⟩
    intro j htj
    by_contra hne
    rcases Nat.lt_or_ge (j : ℕ) (i : ℕ) with hlt | hge
    · exact not_mem_two_waves hsound hlt htj htwi
    · have hltij : (i : ℕ) < (j : ℕ) :=
        lt_of_le_of_ne hge (fun hh => hne (Fin.ext hh.symm))
      exact not_mem_two_waves hsound hltij htwi htj
  · rintro ⟨iv, hiv⟩ t hti d hd
    rw [soundWaves_get tickets _ ∅ hsound iv hiv] at hti
    obtain ⟨htick, helig⟩ := List.mem_filter.1 hti
    have hdp := ((eligible_iff _ _).1 helig).2 d hd
    simp only [placedBefore, Finset.empty_union] at hdp
    obtain ⟨j, hj, hji, u, hu, huid⟩ := mem_waveIds_take.1 hdp
    exact ⟨⟨j, hj⟩, hji, u, hu, huid⟩
  · rintro ⟨iv, hiv⟩ t ht hnotbefore hdepsbefore
    rw [soundWaves_get tickets _ ∅ hsound iv hiv]
    refine List.mem_filter.2 ⟨ht, (eligible_iff _ _).2 ⟨?_, ?_⟩⟩
    · intro hid
      simp only [placedBefore, Finset.empty_union] at hid
      obtain ⟨j, hj, hji, u, hu, huid⟩ := mem_waveIds_take.1 hid
      have hut : u ∈ tickets := soundWaves_flatten_subset tickets _ ∅ hsound u
        (List.mem_flatten.2 ⟨_, List.get_mem _ j hj, hu⟩)
      have hueq : u = t := eq_of_mem_of_id_eq hnd ht hut huid
      exact hnotbefore ⟨j, hj⟩ hji (hueq ▸ hu)
    · intro d hd
      obtain ⟨⟨jv, hjv⟩, hji, u, hu, huid⟩ := hdepsbefore d hd
      simp only [placedBefore, Finset.empty_union]
      exact mem_waveIds_take.2 ⟨jv, hjv, hji, u, hu, huid⟩

theorem claim_C1_wave_planner_witness :
    ((scenarioTickets.map Ticket.id).Nodup ∧
      (∀ t ∈ scenarioTickets, ∀ d ∈ t.dependencies,
        (∃ u ∈ scenarioTickets, u.id = d) ∧ scenarioRank d < scenarioRank t.id)) ∧
    optimize_parallelization scenarioTickets = [[tScenA], [tScenB, tScenC], [tScenD]] := by
  have h := claim_C1_wave_planner scenarioTickets scenarioRank (by decide) (by decide)
  exact ⟨⟨by decide, by decide⟩, h.2.2.2⟩

/-- C2: for a ticket set with distinct ids containing an unschedulable
ticket (a dependency cycle or a dependency on a missing id), the planner
terminates — its value is independent of any extra fuel — raises
nothing, the produced waves contain only input tickets, their union is
exactly the schedulable subset (`Sched`), and the unplaced residue is
nonempty, so the union is a strict subset of the input. -/
theorem claim_C2_cycle_residue (tickets : List Ticket)
    (hnd : (tickets.map Ticket.id).Nodup)
    (hcyc : ∃ t ∈ tickets, ¬ Sched tickets t.id) :
    (∀ u ∈ (optimize_parallelization tickets).flatten, u ∈ tickets) ∧
    (∀ t ∈ tickets,
      (t ∈ (optimize_parallelization tickets).flatten ↔ Sched tickets t.id)) ∧
    (∃ t ∈ tickets, t ∉ (optimize_parallelization tickets).flatten) ∧
    (∀ extra, planLoop tickets (tickets.length + 1 + extra) ∅ =
      optimize_parallelization tickets) := by
  have hsound : SoundWaves tickets ∅ (optimize_parallelization tickets) :=
    soundWaves_planLoop tickets (tickets.length + 1) ∅
  have hsub : ∀ u ∈ (optimize_parallelization tickets).flatten, u ∈ tickets :=
    soundWaves_flatten_subset tickets _ ∅ hsound
  have hfwd : ∀ t ∈ (optimize_parallelization tickets).flatten, Sched tickets t.id := by
    intro t ht
    obtain ⟨w, hw, htw⟩ := List.mem_flatten.1 ht
    obtain ⟨i, hi⟩ := List.mem_iff_get.1 hw
    exact sched_of_mem_wave tickets hsound i i.isLt t (by rw [Fin.eta, hi]; exact htw)
  have hbwd : ∀ t ∈ tickets, Sched tickets t.id →
      t ∈ (optimize_parallelization tickets).flatten := by
    have hend := planLoop_end tickets (tickets.length + 1) ∅ (Finset.empty_subset _)
      (by simp only [Finset.card_empty, Nat.sub_zero]; omega)
    intro t ht hsched
    have hidin : t.id ∈ waveIds (optimize_parallelization tickets).flatten := by
      rcases hend with hempty | hall
      · exact sched_mem_end tickets hempty t.id hsched
      · simpa using hall t ht
    obtain ⟨u, hu, huid⟩ := mem_waveIds.1 hidin
    rwa [eq_of_mem_of_id_eq hnd ht (hsub u hu) huid] at hu
  refine ⟨hsub, fun t ht => ⟨fun h => hfwd t h, hbwd t ht⟩, ?_, ?_⟩
  · obtain ⟨t, ht, hns⟩ := hcyc
    exact ⟨t, ht, fun hmem => hns (hfwd t hmem)⟩
  · intro extra
    exact (planLoop_stable tickets (tickets.length + 1) (tickets.length + 1 + extra) ∅
      (by simp only [Finset.card_empty, Nat.sub_zero]; omega) (by omega)).symm

theorem cycle_not_sched (x : String) : ¬ Sched scenarioCycle x := by
  intro hx
  induction hx with
  | mk t htick hdeps ih =>
    simp only [scenarioCycle, List.mem_cons, List.not_mem_nil, or_false] at htick
    rcases htick with rfl | rfl
    · exact ih "Y" (by simp [tCycX])
    · exact ih "X" (by simp [tCycY])

theorem claim_C2_cycle_residue_witness :
    ((scenarioCycle.map Ticket.id).Nodup ∧
      (∃ t ∈ scenarioCycle, ¬ Sched scenarioCycle t.id)) ∧
    (∃ t ∈ scenarioCycle, t ∉ (optimize_parallelization scenarioCycle).flatten) := by
  have h := claim_C2_cycle_residue scenarioCycle (by decide)
    ⟨tCycX, by simp [scenarioCycle], cycle_not_sched _⟩
  exact ⟨⟨by decide, ⟨tCycX, by simp [scenarioCycle], cycle_not_sched _⟩⟩, h.2.2.1⟩

/-! ## Theorems: review gate and summary -/

theorem countP_lt_iff (t : Ticket) :
    (t.acceptance_criteria.countP (fun c => c.met) < t.acceptance_criteria.length) ↔
      ¬ (∀ c ∈ t.acceptance_criteria, c.met = true) := by
  rw [← List.countP_eq_length]
  constructor
  · intro h he
    exact absurd he (Nat.ne_of_lt h)
  · intro hne
    rcases Nat.lt_or_ge (t.acceptance_criteria.countP (fun c => c.met))
      t.acceptance_criteria.length with h | h
    · exact h
    · exact absurd (le_antisymm (List.countP_le_length _) h) hne

/-- C3: `review_result` approves exactly when the run succeeded, every
acceptance criterion is met, no sub-test failed (when test results are
present), and the alignment score is at least `0.7`; it then sets the
reviewed ticket's status to `completed` exactly on approval and `failed`
exactly on rejection, and to nothing else. -/
theorem claim_C3_review_gate (obj : Option Objective) (t : Ticket) (r : RunnerResult) :
    ((review_result obj t r).1.approved = true ↔
      (r.success = true ∧ (∀ c ∈ t.acceptance_criteria, c.met = true) ∧
        (∀ tr, r.test_results = some tr → tr.failed = 0) ∧
        (0.7 : ℚ) ≤ calculate_alignment_score t r)) ∧
    ((review_result obj t r).2.status =
      if (review_result obj t r).1.approved then TicketStatus.completed
      else TicketStatus.failed) ∧
    ((review_result obj t r).2.status = TicketStatus.completed ∨
      (review_result obj t r).2.status = TicketStatus.failed) := by
  have hstatus : (review_result obj t r).2.status =
      if (review_result obj t r).1.approved then TicketStatus.completed
      else TicketStatus.failed := rfl
  refine ⟨?_, hstatus, ?_⟩
  · simp only [review_result]
    rcases htr : r.test_results with _ | tr <;>
      simp only [htr] <;>
      split_ifs <;>
      simp_all [countP_lt_iff, not_lt, Nat.pos_iff_ne_zero]
  · rw [hstatus]
    by_cases h : (review_result obj t r).1.approved = true
    · left; rw [if_pos h]
    · right; rw [if_neg h]

theorem claim_C3_review_gate_witness :
    (review_result none c4Ticket c3ResultPass).1.approved = true ∧
    (review_result none c4Ticket c3ResultPass).2.status = TicketStatus.completed := by
  have h := claim_C3_review_gate none c4Ticket c3ResultPass
  have happ : (review_result none c4Ticket c3ResultPass).1.approved = true := by
    refine h.1.2 ⟨rfl, by decide, ?_, ?_⟩
    · intro tr htr
      have heq : some (⟨5, 5, 0, 0⟩ : TestResults) = some tr := htr
      cases Option.some.inj heq
      rfl
    · norm_num [calculate_alignment_score, c4Ticket, c3ResultPass]
  refine ⟨happ, ?_⟩
  rw [h.2.1, if_pos happ]

/-- C4: the alignment score equals
`0.3·[success] + 0.4·(criteria met/criteria total) +
(0.3·(passed/total) when test results exist, else 0.15)` clamped from
above by `1` (divisions by a zero denominator contribute `0`, matching
the source's skipped branches); it always lies in `[0, 1]`; and for a
successful result with tests `{total:5, passed:3, failed:2}` and all
acceptance criteria met it equals `0.88`. -/
theorem claim_C4_alignment_score (t : Ticket) (r : RunnerResult) :
    (calculate_alignment_score t r =
      min 1 ((if r.success then (0.3 : ℚ) else 0)
        + 0.4 * ((t.acceptance_criteria.countP (fun c => c.met) : ℚ)
            / (t.acceptance_criteria.length : ℚ))
        + (match r.test_results with
           | some tr => (0.3 : ℚ) * ((tr.passed : ℚ) / (tr.total : ℚ))
           | none => (0.15 : ℚ)))) ∧
    0 ≤ calculate_alignment_score t r ∧ calculate_alignment_score t r ≤ 1 ∧
    calculate_alignment_score c4Ticket c4Result = 0.88 := by
  have hformula : ∀ (t : Ticket) (r : RunnerResult),
      calculate_alignment_score t r =
        min 1 ((if r.success then (0.3 : ℚ) else 0)
          + 0.4 * ((t.acceptance_criteria.countP (fun c => c.met) : ℚ)
              / (t.acceptance_criteria.length : ℚ))
          + (match r.test_results with
             | some tr => (0.3 : ℚ) * ((tr.passed : ℚ) / (tr.total : ℚ))
             | none => (0.15 : ℚ))) := by
    intro t r
    unfold calculate_alignment_score
    rcases htr : r.test_results with _ | tr <;> simp only [htr, zero_add]
    · by_cases hc : 0 < t.acceptance_criteria.length
      · simp [hc]
      · have hl : ((t.acceptance_criteria.length : ℕ) : ℚ) = 0 := by
          have h0 : t.acceptance_criteria.length = 0 := by omega
          exact_mod_cast h0
        simp [hc, hl, div_zero]
    · by_cases hc : 0 < t.acceptance_criteria.length <;> by_cases htt : 0 < tr.total
      · simp [hc, htt]
      · have hl : ((tr.total : ℕ) : ℚ) = 0 := by
          have h0 : tr.total = 0 := by omega
          exact_mod_cast h0
        simp [hc, htt, hl, div_zero]
      · have hl : ((t.acceptance_criteria.length : ℕ) : ℚ) = 0 := by
          have h0 : t.acceptance_criteria.length = 0 := by omega
          exact_mod_cast h0
        simp [hc, htt, hl, div_zero]
      · have hl : ((t.acceptance_criteria.length : ℕ) : ℚ) = 0 := by
          have h0 : t.acceptance_criteria.length = 0 := by omega
          exact_mod_cast h0
        have hl2 : ((tr.total : ℕ) : ℚ) = 0 := by
          have h0 : tr.total = 0 := by omega
          exact_mod_cast h0
        simp [hc, htt, hl, hl2, div_zero]
  refine ⟨hformula t r, ?_, ?_,
    by norm_num [calculate_alignment_score, c4Ticket, c4Result]⟩
  · rw [hformula t r]
    refine le_min (by norm_num) ?_
    have h1 : (0 : ℚ) ≤ (if r.success then (0.3 : ℚ) else 0) := by
      split <;> norm_num
    have h2 : (0 : ℚ) ≤ 0.4 * ((t.acceptance_criteria.countP (fun c => c.met) : ℚ)
        / (t.acceptance_criteria.length : ℚ)) := by positivity
    have h3 : (0 : ℚ) ≤ (match r.test_results with
        | some tr => (0.3 : ℚ) * ((tr.passed : ℚ) / (tr.total : ℚ))
        | none => (0.15 : ℚ)) := by
      rcases r.test_results with _ | tr
      · norm_num
      · positivity
    linarith
  · unfold calculate_alignment_score
    exact min_le_left _ _

theorem follow_up_foldl_length (ticket : Ticket) :
    ∀ (logs : List String) (acc : List Ticket),
      (logs.foldl
        (fun acc log =>
          if isFollowUpLog log then acc ++ [mkLogFollowUp ticket log acc.length] else acc)
        acc).length = acc.length + logs.countP isFollowUpLog := by
  intro logs
  induction logs with
  | nil => intro acc; simp
  | cons l ls ih =>
    intro acc
    by_cases h : isFollowUpLog l
    · rw [List.foldl_cons, if_pos h, ih, List.countP_cons_of_pos _ _ h, List.length_append]
      simp
      omega
    · rw [List.foldl_cons, if_neg h, ih, List.countP_cons_of_neg _ _ h]

theorem follow_up_foldl_mem (ticket : Ticket) :
    ∀ (logs : List String) (acc : List Ticket) (fu : Ticket),
      fu ∈ logs.foldl
        (fun acc log =>
          if isFollowUpLog log then acc ++ [mkLogFollowUp ticket log acc.length] else acc)
        acc →
      fu ∈ acc ∨ ∃ log n, fu = mkLogFollowUp ticket log n := by
  intro logs
  induction logs with
  | nil => intro acc fu h; exact Or.inl h
  | cons l ls ih =>
    intro acc fu h
    rw [List.foldl_cons] at h
    by_cases hl : isFollowUpLog l
    · rw [if_pos hl] at h
      rcases ih _ fu h with hin | hmk
      · rcases List.mem_append.1 hin with hin | hin
        · exact Or.inl hin
        · simp only [List.mem_singleton] at hin
          exact Or.inr ⟨l, acc.length, hin⟩
      · exact Or.inr hmk
    · rw [if_neg hl] at h
      exact ih _ fu h

/-- C6: `_identify_follow_ups` spawns exactly one follow-up ticket per
distinct trigger — one for a non-zero failing-test count, plus one per
log line containing a follow-up marker — and every spawned follow-up
ticket's dependency list contains the parent ticket's id. -/
theorem claim_C6_follow_ups (t : Ticket) (r : RunnerResult) :
    (identify_follow_ups t r).length =
      ((match r.test_results with
        | some tr => if 0 < tr.failed then 1 else 0
        | none => 0) + r.logs.countP isFollowUpLog) ∧
    ∀ fu ∈ identify_follow_ups t r, t.id ∈ fu.dependencies := by
  constructor
  · unfold identify_follow_ups
    rcases r.test_results with _ | tr
    · simpa using follow_up_foldl_length t r.logs []
    · by_cases h : 0 < tr.failed <;>
        simp [h, follow_up_foldl_length t r.logs]
  · intro fu hfu
    unfold identify_follow_ups at hfu
    rcases follow_up_foldl_mem t r.logs _ fu hfu with hin | ⟨log, n, rfl⟩
    · rcases htr : r.test_results with _ | tr <;> rw [htr] at hin
      · simp at hin
      · by_cases h : 0 < tr.failed
        · simp [h] at hin
          rw [hin]
          simp [mkTestFollowUp]
        · simp [h] at hin
    · simp [mkLogFollowUp]

theorem claim_C6_follow_ups_witness :
    (identify_follow_ups c4Ticket c4Result).length = 1 ∧
    c4Ticket.id ∈ (mkTestFollowUp c4Ticket 2).dependencies := by
  have h := claim_C6_follow_ups c4Ticket c4Result
  exact ⟨by rw [h.1]; rfl, h.2 (mkTestFollowUp c4Ticket 2) (by decide)⟩

/-- C10: `create_summary` of an empty review list returns all-zero
statistics (the divisions by the review count are guarded), and the
overall-success flag of `_generate_summary` is then `false` whatever the
integration status, because the `0.8` approval-rate requirement fails. -/
theorem claim_C10_empty_summary :
    create_summary [] = ⟨0, 0, 0, 0, 0, 0⟩ ∧
    ∀ integration_status : String,
      overall_success integration_status (create_summary []) = false := by
  constructor
  · rfl
  · intro s
    have hrate : (create_summary ([] : List ReviewResult)).approval_rate = 0 := rfl
    rw [overall_success, hrate, decide_eq_false (by norm_num : ¬ ((0.8 : ℚ) ≤ 0))]
    exact Bool.and_false _

/-! ## Theorems: wave executor and commit step -/

theorem executeWave_length (autonomous : Bool) (uname uemail : String)
    (work : Ticket → WorkOutcome) (git : Ticket → GitCommitOutcome) (wave : List Ticket) :
    (executeWave autonomous uname uemail work git wave).length = wave.length := by
  simp [executeWave]

theorem executeWave_getD (autonomous : Bool) (uname uemail : String)
    (work : Ticket → WorkOutcome) (git : Ticket → GitCommitOutcome) (wave : List Ticket)
    (i : Fin wave.length) :
    (executeWave autonomous uname uemail work git wave).getD i defaultRun
      = processTicket autonomous uname uemail work git i (wave.get i) := by
  rw [List.getD_eq_getElem _ _ (by rw [executeWave_length]; exact i.isLt)]
  simp [executeWave]

theorem processTicket_ticket_id (autonomous : Bool) (uname uemail : String)
    (work : Ticket → WorkOutcome) (git : Ticket → GitCommitOutcome) (idx : Nat)
    (t : Ticket) :
    (processTicket autonomous uname uemail work git idx t).result.ticket_id = t.id := by
  rcases hw : work t with _ | _ <;> simp [processTicket, execute_ticket, hw]

/-- C5: for every wave, the executor produces exactly one result per
ticket of the wave (in particular the result list's ticket ids are
exactly the wave's ids, in order); a raised fault in one ticket's unit
of work is converted into a failed result carrying the fault message;
and each ticket's run depends only on its own unit of work's outcome, so
one ticket's fault never changes — let alone prevents — a sibling's
result. -/
theorem claim_C5_wave_isolation (autonomous : Bool) (uname uemail : String)
    (work work2 : Ticket → WorkOutcome) (git : Ticket → GitCommitOutcome)
    (wave : List Ticket) :
    ((executeWave autonomous uname uemail work git wave).map
        (fun run => run.result.ticket_id) = wave.map Ticket.id) ∧
    (∀ i : Fin wave.length, ∀ partialLogs msg elapsed,
      work (wave.get i) = .raised partialLogs msg elapsed →
      ((executeWave autonomous uname uemail work git wave).getD i defaultRun).result.success
          = false ∧
      ((executeWave autonomous uname uemail work git wave).getD i
          defaultRun).result.error_message = some ("Error executing ticket: " ++ msg)) ∧
    (∀ i : Fin wave.length, work (wave.get i) = work2 (wave.get i) →
      (executeWave autonomous uname uemail work git wave).getD i defaultRun
        = (executeWave autonomous uname uemail work2 git wave).getD i defaultRun) := by
  refine ⟨?_, ?_, ?_⟩
  · rw [executeWave, List.map_map]
    have h : ((fun run => run.result.ticket_id) ∘
        fun p : Nat × Ticket => processTicket autonomous uname uemail work git p.1 p.2)
        = fun p : Nat × Ticket => p.2.id := by
      funext p
      exact processTicket_ticket_id autonomous uname uemail work git p.1 p.2
    rw [h]
    rw [show (fun p : Nat × Ticket => p.2.id) = Ticket.id ∘ Prod.snd from rfl,
      ← List.map_map, List.enum_map_snd]
  · intro i partialLogs msg elapsed hraised
    rw [executeWave_getD]
    rw [List.get_eq_getElem] at hraised
    constructor <;> simp [processTicket, execute_ticket, hraised]
  · intro i h
    rw [executeWave_getD, executeWave_getD, processTicket, processTicket, h]

theorem claim_C5_wave_isolation_witness :
    ((executeWave true "FiveMinds" "fiveminds@localhost" c5Work c9GitFail c5Wave).map
        (fun run => run.result.ticket_id) = c5Wave.map Ticket.id) ∧
    (((executeWave true "FiveMinds" "fiveminds@localhost" c5Work c9GitFail c5Wave).getD 1
        defaultRun).result.success = false) ∧
    (((executeWave true "FiveMinds" "fiveminds@localhost" c5Work c9GitFail c5Wave).getD 1
        defaultRun).result.error_message = some "Error executing ticket: boom") ∧
    ((executeWave true "FiveMinds" "fiveminds@localhost" c5Work c9GitFail c5Wave).getD 0
        defaultRun
      = (executeWave true "FiveMinds" "fiveminds@localhost" c5WorkAlt c9GitFail c5Wave).getD 0
        defaultRun) := by
  have h := claim_C5_wave_isolation true "FiveMinds" "fiveminds@localhost" c5Work c5WorkAlt
    c9GitFail c5Wave
  refine ⟨h.1, ?_, ?_, h.2.2 ⟨0, by decide⟩ rfl⟩
  · exact (h.2.1 ⟨1, by decide⟩ [] "boom" 0 rfl).1
  · exact (h.2.1 ⟨1, by decide⟩ [] "boom" 0 rfl).2

/-- C9: in autonomous mode, a ticket whose unit of work returned a
successful result (in particular one whose review then approves it) has
a commit attempted through the version-control adapter with the supplied
author identity; and the stored results, mutated tickets and review
outcomes are identical under any two commit oracles — a failing or
raising commit step changes neither the stored result's success flag nor
the ticket's review outcome. -/
theorem claim_C9_commit_step (obj : Option Objective) (uname uemail : String)
    (work : Ticket → WorkOutcome) (git git2 : Ticket → GitCommitOutcome)
    (wave : List Ticket) (i : Fin wave.length)
    (hsucc : ((executeWave true uname uemail work git wave).getD i
      defaultRun).result.success = true)
    (_happr : (review_result obj
        ((executeWave true uname uemail work git wave).getD i defaultRun).ticketAfter
        ((executeWave true uname uemail work git wave).getD i
          defaultRun).result).1.approved = true) :
    (∃ cs, ((executeWave true uname uemail work git wave).getD i defaultRun).commitStep
        = some cs ∧
      cs.author = uname ++ " <" ++ uemail ++ ">" ∧ cs.ticket_id = (wave.get i).id) ∧
    ((executeWave true uname uemail work git wave).map (fun run => run.result)
      = (executeWave true uname uemail work git2 wave).map (fun run => run.result)) ∧
    ((executeWave true uname uemail work git wave).map (fun run => run.ticketAfter)
      = (executeWave true uname uemail work git2 wave).map (fun run => run.ticketAfter)) ∧
    ((executeWave true uname uemail work git wave).map
        (fun run => review_result obj run.ticketAfter run.result)
      = (executeWave true uname uemail work git2 wave).map
        (fun run => review_result obj run.ticketAfter run.result)) := by
  refine ⟨?_, ?_, ?_, ?_⟩
  · rw [executeWave_getD] at hsucc ⊢
    refine ⟨commit_changes ("R" ++ toString ((i : ℕ) + 1)) uname uemail (wave.get i)
      (git (wave.get i)), ?_, rfl, rfl⟩
    simp only [processTicket] at hsucc ⊢
    rw [hsucc]
    rfl
  · rw [executeWave, executeWave, List.map_map, List.map_map]
    congr 1
  · rw [executeWave, executeWave, List.map_map, List.map_map]
    congr 1
  · rw [executeWave, executeWave, List.map_map, List.map_map]
    congr 1

theorem claim_C9_commit_step_witness :
    (((executeWave true "FiveMinds" "fiveminds@localhost" c5Work c9GitFail c9Wave).getD 0
        defaultRun).result.success = true) ∧
    ((review_result none
        ((executeWave true "FiveMinds" "fiveminds@localhost" c5Work c9GitFail c9Wave).getD 0
          defaultRun).ticketAfter
        ((executeWave true "FiveMinds" "fiveminds@localhost" c5Work c9GitFail c9Wave).getD 0
          defaultRun).result).1.approved = true) ∧
    (∃ cs, ((executeWave true "FiveMinds" "fiveminds@localhost" c5Work c9GitFail c9Wave).getD 0
        defaultRun).commitStep = some cs ∧
      cs.author = "FiveMinds" ++ " <" ++ "fiveminds@localhost" ++ ">" ∧
      cs.ticket_id = (c9Wave.get ⟨0, by decide⟩).id) ∧
    ((executeWave true "FiveMinds" "fiveminds@localhost" c5Work c9GitFail c9Wave).map
        (fun run => run.result)
      = (executeWave true "FiveMinds" "fiveminds@localhost" c5Work c9GitOk c9Wave).map
        (fun run => run.result)) := by
  have hsucc : ((executeWave true "FiveMinds" "fiveminds@localhost" c5Work c9GitFail
      c9Wave).getD 0 defaultRun).result.success = true := rfl
  have hget : (executeWave true "FiveMinds" "fiveminds@localhost" c5Work c9GitFail
      c9Wave).getD 0 defaultRun
      = processTicket true "FiveMinds" "fiveminds@localhost" c5Work c9GitFail 0 c5Good :=
    executeWave_getD true "FiveMinds" "fiveminds@localhost" c5Work c9GitFail c9Wave
      ⟨0, by decide⟩
  have hwork : c5Work c5Good = WorkOutcome.ok [] (some ⟨5, 5, 0, 0⟩) 0 := rfl
  have happr : (review_result none
      ((executeWave true "FiveMinds" "fiveminds@localhost" c5Work c9GitFail c9Wave).getD 0
        defaultRun).ticketAfter
      ((executeWave true "FiveMinds" "fiveminds@localhost" c5Work c9GitFail c9Wave).getD 0
        defaultRun).result).1.approved = true := by
    rw [hget]
    simp only [processTicket, execute_ticket, hwork]
    norm_num [review_result, calculate_alignment_score, c5Good]
  have h := claim_C9_commit_step none "FiveMinds" "fiveminds@localhost" c5Work c9GitFail
    c9GitOk c9Wave ⟨0, by decide⟩ hsucc happr
  exact ⟨hsucc, happr, h.1, h.2.1⟩

/-! ## Theorems: tool adapters -/

/-- C7: a command execution that exceeds its effective (explicit or
default) timeout yields a `success = false` result carrying the
adapter's timeout error message, for both `ShellTools.run` and
`GitTools._run_git`; the embedded functions are total, so no call
hangs. -/
theorem claim_C7_timeout (st : ShellTools) (command : String) (args : List String)
    (timeout : Option Nat) (gt : GitTools) (gargs : List String) :
    ((ShellTools.run st command args timeout .timedOut).success = false ∧
     (ShellTools.run st command args timeout .timedOut).error =
       some ("Command timed out after " ++ toString (effectiveTimeout timeout st.timeout)
         ++ " seconds")) ∧
    ((GitTools.run_git gt gargs timeout .timedOut).success = false ∧
     (GitTools.run_git gt gargs timeout .timedOut).error =
       some ("Git command timed out after " ++ toString (effectiveTimeout timeout gt.timeout)
         ++ " seconds")) :=
  ⟨⟨rfl, rfl⟩, ⟨rfl, rfl⟩⟩

/-- C8 counterexample: the shell adapter performs no path containment.
`ShellTools.run` on a sandbox rooted at `/sandbox` with the outside
path `/etc/passwd` as argument is not rejected: the subprocess runs and
its captured output is returned with `success = true`. -/
theorem claim_C8_counterexample :
    (ShellTools.run c8Shell "cat" ["/etc/passwd"] none
        (.completed 0 "root:x:0:0:root" "")).success = true ∧
    (ShellTools.run c8Shell "cat" ["/etc/passwd"] none
        (.completed 0 "root:x:0:0:root" "")).output.stdout = some "root:x:0:0:root" := by
  constructor
  · rfl
  · rfl

/-- C8 (amended): only the repo adapter enforces path containment —
each `RepoTools` path argument is resolved and checked by
`_validate_path`, and a path resolving outside the repository root
yields a failure result carrying the out-of-bounds error.  The check
precedes any I/O only for single-path operations: for `repo.read` an
outside path is rejected with a result identical under any two
filesystem oracles (no I/O occurred), whereas `repo.diff` reads its
first path before validating its second, so an outside second path is
still rejected but only after that read — the outcome depends on the
filesystem (here: the first path existing versus missing changes the
error).  The shell and git adapters perform no path containment at all
(see the counterexample). -/
theorem claim_C8_path_containment (raw : List String) (p : PyPath)
    (fs fs2 : List String → Option FsNode) (start_line : Nat) (end_line : Option Nat)
    (houtside : ¬ (RepoTools.make raw).repo_path.isPrefixOf
        (resolvePath (RepoTools.make raw).repo_path p) = true) :
    (((RepoTools.make raw).read fs p start_line end_line).success = false ∧
     ((RepoTools.make raw).read fs p start_line end_line).error = some (outsideMsg p) ∧
     (RepoTools.make raw).read fs p start_line end_line
       = (RepoTools.make raw).read fs2 p start_line end_line) ∧
    (((RepoTools.make ["repo"]).diff c8FsInside c8UDiff c8Inside (some c8Traversal) 3).success
        = false ∧
     ((RepoTools.make ["repo"]).diff c8FsInside c8UDiff c8Inside (some c8Traversal) 3).error
        = some (outsideMsg c8Traversal) ∧
     ((RepoTools.make ["repo"]).diff c8FsEmpty c8UDiff c8Inside (some c8Traversal) 3).error
        = some ("File does not exist: " ++ renderPath c8Inside) ∧
     (RepoTools.make ["repo"]).diff c8FsInside c8UDiff c8Inside (some c8Traversal) 3
       ≠ (RepoTools.make ["repo"]).diff c8FsEmpty c8UDiff c8Inside (some c8Traversal) 3) := by
  have hv : validate_path (RepoTools.make raw) p = Except.error (outsideMsg p) := by
    rw [validate_path]
    simp [houtside]
  refine ⟨⟨?_, ?_, ?_⟩, rfl, rfl, rfl, by decide⟩ <;> simp [RepoTools.read, hv]

theorem claim_C8_path_containment_witness :
    (¬ (RepoTools.make ["repo"]).repo_path.isPrefixOf
        (resolvePath (RepoTools.make ["repo"]).repo_path c8Traversal) = true) ∧
    ((RepoTools.make ["repo"]).read c8FsEmpty c8Traversal 0 none).success = false ∧
    ((RepoTools.make ["repo"]).read c8FsEmpty c8Traversal 0 none).error
      = some (outsideMsg c8Traversal) ∧
    (RepoTools.make ["repo"]).read c8FsEmpty c8Traversal 0 none
      = (RepoTools.make ["repo"]).read c8FsSecret c8Traversal 0 none ∧
    ((RepoTools.make ["repo"]).diff c8FsInside c8UDiff c8Inside (some c8Traversal) 3).error
      = some (outsideMsg c8Traversal) ∧
    (RepoTools.make ["repo"]).diff c8FsInside c8UDiff c8Inside (some c8Traversal) 3
      ≠ (RepoTools.make ["repo"]).diff c8FsEmpty c8UDiff c8Inside (some c8Traversal) 3 := by
  have h := claim_C8_path_containment ["repo"] c8Traversal c8FsEmpty c8FsSecret 0 none
    (by decide)
  exact ⟨by decide, h.1.1, h.1.2.1, h.1.2.2, h.2.2.1, h.2.2.2.2⟩

end FiveMinds
